import Mathlib

/- Shallow embedding of the TOAST provisioning subsystem of
src/src/backend/catalog/toasting.c: the eligibility evaluator
RelationNeedsToastTable, the provisioner create_toast_table and the
bootstrap entry point BootstrapToastTable, together with theorems
settling the specification claims about them.  Catalog constants and
macros whose definitions live in headers absent from the sources are
modelled from the spec and marked as such. -/

deriving instance DecidableEq for Except

namespace Toasting

/-- Modelled from the spec: the invalid/unassigned catalog identifier
(InvalidOid in the sources). -/
def InvalidOid : Nat := 0

/-- Modelled from the spec: catalog identifier of the identifier type used
for the first toast column (OIDOID; the header with the concrete number is
not among the sources). -/
def OIDOID : Nat := 26

/-- Modelled from the spec: catalog identifier of the 32-bit signed integer
type used for the chunk-sequence column (INT4OID). -/
def INT4OID : Nat := 23

/-- Modelled from the spec: catalog identifier of the variable-length
binary type used for the chunk-data column (BYTEAOID). -/
def BYTEAOID : Nat := 17

/-- Modelled from the spec: access-method identifier of the ordered
(btree) index machinery (BTREE_AM_OID). -/
def BTREE_AM_OID : Nat := 403

/-- Modelled from the spec: btree operator class for the identifier type
(OID_BTREE_OPS_OID). -/
def OID_BTREE_OPS_OID : Nat := 1981

/-- Modelled from the spec: btree operator class for 32-bit integers
(INT4_BTREE_OPS_OID). -/
def INT4_BTREE_OPS_OID : Nat := 1978

/-- Modelled from the spec: the dedicated namespace that receives every
toast relation (PG_TOAST_NAMESPACE). -/
def PG_TOAST_NAMESPACE : Nat := 99

/-- Modelled from the spec: the fixed design threshold the accumulated
tuple size is compared against, a configured fraction of the page size of
roughly 2000 bytes (TOAST_TUPLE_THRESHOLD; the header defining it is not
among the sources). -/
def TOAST_TUPLE_THRESHOLD : Int := 2042

/-- Modelled from the spec: the fixed part of the per-row header overhead,
the byte offset of the null bitmap inside the row header
(offsetof(HeapTupleHeaderData, t_bits)). -/
def offsetof_t_bits : Int := 23

/-- Alignment of an offset up to a multiple of a positive alignment
quantum, as the TYPEALIGN macro computes it for nonnegative offsets. -/
def TYPEALIGN (a cur : Int) : Int := ((cur + a - 1) / a) * a

/-- Modelled from the spec: MAXALIGN pads to the maximal alignment quantum
of 8 bytes. -/
def MAXALIGN (cur : Int) : Int := TYPEALIGN 8 cur

/-- Modelled from the spec: the null-bitmap overhead in bytes, one bit per
attribute of the row, rounded up to whole bytes (the BITMAPLEN macro). -/
def BITMAPLEN (natts : Int) : Int := (natts + 7) / 8

/-- Modelled from the spec: per-attribute alignment padding keyed by the
attribute alignment code, as the att_align macro dispatches it
(int, char, double, otherwise short alignment). -/
def att_align (cur : Int) (attalign : Char) : Int :=
  if attalign = 'i' then TYPEALIGN 4 cur
  else if attalign = 'c' then cur
  else if attalign = 'd' then TYPEALIGN 8 cur
  else TYPEALIGN 2 cur

/-- One attribute of the owner relation, with the fields
RelationNeedsToastTable reads: the dropped flag, the alignment code, the
fixed length (positive) or variable-length marker (nonpositive), the
declared maximum size as type_maximum_size returns it for the attribute's
type and typmod (negative when unbounded/unknown), and the storage
class code. -/
structure Attr where
  attisdropped : Bool
  attalign : Char
  attlen : Int
  maxSize : Int
  attstorage : Char
deriving DecidableEq

/-- The three accumulators of the scan loop of RelationNeedsToastTable. -/
structure ScanState where
  data_length : Int
  maxlength_unknown : Bool
  has_toastable_attrs : Bool
deriving DecidableEq

/-- The variable-length branch of the loop body: align, then either record
an unknown maximum or add the declared maximum. -/
def scanVarAttr (s : ScanState) (a : Attr) : ScanState :=
  if a.maxSize < 0 then
    { s with data_length := att_align s.data_length a.attalign,
             maxlength_unknown := true }
  else
    { s with data_length := att_align s.data_length a.attalign + a.maxSize }

/-- One iteration of the loop of RelationNeedsToastTable: dropped
attributes are skipped, fixed-length attributes add their aligned length,
variable-length attributes go through scanVarAttr and flag toastability
when their storage class is not plain. -/
def scanAttr (s : ScanState) (a : Attr) : ScanState :=
  if a.attisdropped then s
  else if a.attlen > 0 then
    { s with data_length := att_align s.data_length a.attalign + a.attlen }
  else if a.attstorage = 'p' then scanVarAttr s a
  else { scanVarAttr s a with has_toastable_attrs := true }

/-- The whole scan loop over the attribute list, starting from zeroed
accumulators. -/
def scanAttrs (l : List Attr) : ScanState :=
  l.foldl scanAttr { data_length := 0, maxlength_unknown := false,
                     has_toastable_attrs := false }

/-- The owner relation as create_toast_table and RelationNeedsToastTable
read it: its identifier, relation kind, shared flag, current toast
reference (InvalidOid when absent), the two exempt-storage discriminators
(modelled from the spec: RelationIsExternal and RelationIsAo are macros
from headers absent from the sources) and the attribute list. -/
structure Relation where
  relOid : Nat
  relkind : Char
  relisshared : Bool
  reltoastrelid : Nat
  isExternal : Bool
  isAo : Bool
  attrs : List Attr
deriving DecidableEq

/-- The maximum tuple length computed at the end of
RelationNeedsToastTable: padded header-plus-null-bitmap overhead plus the
padded accumulated data length. -/
def tuple_length (rel : Relation) : Int :=
  MAXALIGN (offsetof_t_bits + BITMAPLEN (rel.attrs.length : Int)) +
    MAXALIGN (scanAttrs rel.attrs).data_length

/-- Embedding of RelationNeedsToastTable: exempt storage kinds are never
eligible, then the scan loop runs, then the three result rules of the
source apply in order. -/
def RelationNeedsToastTable (rel : Relation) : Bool :=
  if rel.isExternal then false
  else if rel.isAo then false
  else if !(scanAttrs rel.attrs).has_toastable_attrs then false
  else if (scanAttrs rel.attrs).maxlength_unknown then true
  else decide (tuple_length rel > TOAST_TUPLE_THRESHOLD)

/-- The ambient process modes create_toast_table consults: the upgrade
flag gp_upgrade_mode and IsBootstrapProcessingMode. -/
structure Mode where
  gp_upgrade_mode : Bool
  bootstrap_processing : Bool
deriving DecidableEq

/-- One column of the toast relation's tuple descriptor: name, type
identifier and storage class code. -/
structure ToastColumn where
  name : String
  typeOid : Nat
  attstorage : Char
deriving DecidableEq

/-- The index description create_toast_table fills in before calling
index_create. -/
structure IndexInfoModel where
  numIndexAttrs : Nat
  keyAttrNumbers : List Nat
  unique : Bool
  concurrent : Bool
deriving DecidableEq

/-- Dependency kinds; create_toast_table records only internal edges. -/
inductive DependencyType where
  | normal
  | internal
deriving DecidableEq

/-- A recorded dependency edge: dependent object, referenced object and
kind, as recordDependencyOn receives them. -/
structure DepEdge where
  dependent : Nat
  referenced : Nat
  depType : DependencyType
deriving DecidableEq

/-- Everything a successful run of create_toast_table creates or mutates:
the synthesized names, the identifiers of the new relation and index, the
toast schema, the index description, the lock release for partition
children, the catalog-pointer update and its flavour, and the recorded
dependency edge. -/
structure ToastCreation where
  toastRelname : String
  toastIdxname : String
  toastRelid : Nat
  toastIdxid : Nat
  namespaceId : Nat
  relkind : Char
  shared : Bool
  columns : List ToastColumn
  comptypeArg : Option Nat
  indexInfo : IndexInfoModel
  indexAm : Nat
  opclasses : List Nat
  unlockedNewObjects : Bool
  newReltoastrelid : Nat
  updatedInPlace : Bool
  dependency : Option DepEdge
deriving DecidableEq

/-- Result of a run of create_toast_table that did not error: either the
no-op false return, or the true return together with what was created. -/
inductive ProvisionResult where
  | noop
  | provisioned (c : ToastCreation)
deriving DecidableEq

/-- The fatal conditions create_toast_table itself can raise. -/
inductive ToastError where
  | sharedAfterInitdb
  | cacheLookupFailed (relOid : Nat)
deriving DecidableEq

/-- An identifier request against the creation collaborator: a nonzero
pre-assigned identifier is used as is, otherwise the freshly allocated
one is returned. -/
def usedOid (pre fresh : Nat) : Nat := if pre ≠ 0 then pre else fresh

/-- The creation record produced by the success path of
create_toast_table, field by field as the source builds it: names derived
from the owner identifier, the three plain-storage columns, the unique
non-concurrent two-column btree index description, the partition-child
lock release, the catalog-pointer update (in place while bootstrapping)
and the internal dependency edge (skipped while bootstrapping). -/
def mkToastCreation (mode : Mode) (rel : Relation) (toastOid toastIndexOid : Nat)
    (comptypeOid : Option Nat) (is_part_child : Bool) (freshRelOid freshIdxOid : Nat) :
    ToastCreation :=
  { toastRelname := "pg_toast_" ++ Nat.repr rel.relOid
    toastIdxname := "pg_toast_" ++ Nat.repr rel.relOid ++ "_index"
    toastRelid := usedOid toastOid freshRelOid
    toastIdxid := usedOid toastIndexOid freshIdxOid
    namespaceId := PG_TOAST_NAMESPACE
    relkind := 't'
    shared := rel.relisshared
    columns := [{ name := "chunk_id", typeOid := OIDOID, attstorage := 'p' },
                { name := "chunk_seq", typeOid := INT4OID, attstorage := 'p' },
                { name := "chunk_data", typeOid := BYTEAOID, attstorage := 'p' }]
    comptypeArg := comptypeOid
    indexInfo := { numIndexAttrs := 2, keyAttrNumbers := [1, 2],
                   unique := true, concurrent := false }
    indexAm := BTREE_AM_OID
    opclasses := [OID_BTREE_OPS_OID, INT4_BTREE_OPS_OID]
    unlockedNewObjects := is_part_child
    newReltoastrelid := usedOid toastOid freshRelOid
    updatedInPlace := mode.bootstrap_processing
    dependency := if mode.bootstrap_processing then none
      else some { dependent := usedOid toastOid freshRelOid,
                  referenced := rel.relOid,
                  depType := DependencyType.internal } }

/-- Embedding of create_toast_table: the four guards of the source in
their order (already-toasted no-op outside upgrade mode, eligibility,
upgrade-mode suppression without a pre-assigned identifier, shared
relation error), then the creation work.  The two fresh identifiers stand
for the allocations the creation collaborators would perform when no
pre-assigned identifier is supplied. -/
def create_toast_table (mode : Mode) (rel : Relation) (toastOid toastIndexOid : Nat)
    (comptypeOid : Option Nat) (is_part_child : Bool) (freshRelOid freshIdxOid : Nat) :
    Except ToastError ProvisionResult :=
  if mode.gp_upgrade_mode = false ∧ rel.reltoastrelid ≠ InvalidOid then
    Except.ok ProvisionResult.noop
  else if RelationNeedsToastTable rel = false then
    Except.ok ProvisionResult.noop
  else if mode.gp_upgrade_mode = true ∧ toastOid = InvalidOid then
    Except.ok ProvisionResult.noop
  else if rel.relisshared = true ∧ mode.bootstrap_processing = false ∧
      mode.gp_upgrade_mode = false then
    Except.error ToastError.sharedAfterInitdb
  else
    Except.ok (ProvisionResult.provisioned
      (mkToastCreation mode rel toastOid toastIndexOid comptypeOid is_part_child
        freshRelOid freshIdxOid))

/-- The owner's catalog row after a successful creation: its toast
reference now points at the new toast relation. -/
def applyProvision (rel : Relation) (c : ToastCreation) : Relation :=
  { rel with reltoastrelid := c.toastRelid }

/-- The owner's catalog row after a whole run: only a successful creation
changes it; a no-op return or a fatal error leaves it untouched. -/
def ownerAfter (rel : Relation) (r : Except ToastError ProvisionResult) : Relation :=
  match r with
  | Except.ok (ProvisionResult.provisioned c) => applyProvision rel c
  | _ => rel

/-- Modelled from the spec: pre-assigned toast-table identifier for the
pg_filespace_entry owner identity; the concrete number lives in a header
absent from the sources and is fixed here as an opaque nonzero constant. -/
def PgFileSpaceEntryToastTable : Nat := 5034

/-- Modelled from the spec: pre-assigned toast-table identifier for the
gp_segment_configuration owner identity. -/
def GpSegmentConfigToastTable : Nat := 5037

/-- Modelled from the spec: pre-assigned toast-table identifier for the
pg_attribute_encoding owner identity. -/
def PgAttributeEncodingToastTable : Nat := 3232

/-- Modelled from the spec: pre-assigned toast-table identifier for the
pg_type_encoding owner identity. -/
def PgTypeEncodingToastTable : Nat := 3222

/-- Modelled from the spec: pre-assigned toast-table identifier for the
pg_partition_encoding owner identity. -/
def PgPartitionEncodingToastTable : Nat := 9904

/-- Modelled from the spec: pre-assigned toast-table identifier for the
pg_filesystem owner identity. -/
def PgFileSystemToastTable : Nat := 5081

/-- Modelled from the spec: pre-assigned toast-table identifier for the
pg_remote_credentials owner identity. -/
def PgRemoteCredentialsToastTable : Nat := 7077

/-- Modelled from the spec: pre-assigned toast-table identifier for the
pg_resqueue owner identity. -/
def PgResQueueToastTable : Nat := 6027

/-- Modelled from the spec: pre-assigned composite-row-type identifier
paired with the pg_filespace_entry toast table. -/
def PG_FILESPACE_ENTRY_TOAST_RELTYPE_OID : Nat := 10001

/-- Modelled from the spec: pre-assigned composite-row-type identifier
paired with the gp_segment_configuration toast table. -/
def GP_SEGMENT_CONFIGURATION_TOAST_RELTYPE_OID : Nat := 10002

/-- Modelled from the spec: pre-assigned composite-row-type identifier
paired with the pg_attribute_encoding toast table. -/
def PG_ATTRIBUTE_ENCODING_TOAST_RELTYPE_OID : Nat := 10003

/-- Modelled from the spec: pre-assigned composite-row-type identifier
paired with the pg_type_encoding toast table. -/
def PG_TYPE_ENCODING_TOAST_RELTYPE_OID : Nat := 10004

/-- Modelled from the spec: pre-assigned composite-row-type identifier
paired with the pg_partition_encoding toast table. -/
def PG_PARTITION_ENCODING_TOAST_RELTYPE_OID : Nat := 10005

/-- Modelled from the spec: pre-assigned composite-row-type identifier
paired with the pg_filesystem toast table. -/
def PG_FILESYSTEM_TOAST_RELTYPE_OID : Nat := 10006

/-- Modelled from the spec: pre-assigned composite-row-type identifier
paired with the pg_remote_credentials toast table. -/
def PG_REMOTE_CREDENTIALS_TOAST_RELTYPE_OID : Nat := 10007

/-- Modelled from the spec: pre-assigned composite-row-type identifier
paired with the pg_resqueue toast table. -/
def PG_RESQUEUE_TOAST_RELTYPE_OID : Nat := 10008

/-- The switch of BootstrapToastTable: a registered pre-assigned
toast-table identifier maps to its pre-assigned composite-row-type
identifier; everything else falls through to InvalidOid. -/
def bootstrapTypid (toastOid : Nat) : Nat :=
  if toastOid = PgFileSpaceEntryToastTable then PG_FILESPACE_ENTRY_TOAST_RELTYPE_OID
  else if toastOid = GpSegmentConfigToastTable then GP_SEGMENT_CONFIGURATION_TOAST_RELTYPE_OID
  else if toastOid = PgAttributeEncodingToastTable then PG_ATTRIBUTE_ENCODING_TOAST_RELTYPE_OID
  else if toastOid = PgTypeEncodingToastTable then PG_TYPE_ENCODING_TOAST_RELTYPE_OID
  else if toastOid = PgPartitionEncodingToastTable then PG_PARTITION_ENCODING_TOAST_RELTYPE_OID
  else if toastOid = PgFileSystemToastTable then PG_FILESYSTEM_TOAST_RELTYPE_OID
  else if toastOid = PgRemoteCredentialsToastTable then PG_REMOTE_CREDENTIALS_TOAST_RELTYPE_OID
  else if toastOid = PgResQueueToastTable then PG_RESQUEUE_TOAST_RELTYPE_OID
  else InvalidOid

/-- The owner identities registered in the static bootstrap map, by their
pre-assigned toast-table identifiers. -/
def registeredBootstrapToastOids : List Nat :=
  [PgFileSpaceEntryToastTable, GpSegmentConfigToastTable,
   PgAttributeEncodingToastTable, PgTypeEncodingToastTable,
   PgPartitionEncodingToastTable, PgFileSystemToastTable,
   PgRemoteCredentialsToastTable, PgResQueueToastTable]

/-- The errors BootstrapToastTable can raise: a non-table owner, a
create_toast_table error, or the fatal contradiction when the forced
provision turns out not to be needed. -/
inductive BootstrapError where
  | notATable
  | doesNotRequireToast
  | toastFailed (e : ToastError)
deriving DecidableEq

/-- Inspection of the create_toast_table result inside BootstrapToastTable:
a false return is promoted to an error. -/
def bootstrapFinish (r : Except ToastError ProvisionResult) :
    Except BootstrapError ToastCreation :=
  match r with
  | Except.error e => Except.error (BootstrapError.toastFailed e)
  | Except.ok ProvisionResult.noop => Except.error BootstrapError.doesNotRequireToast
  | Except.ok (ProvisionResult.provisioned c) => Except.ok c

/-- Embedding of BootstrapToastTable: the relation-kind guard (ordinary or
uncataloged table), the switch from the pre-assigned toast-table
identifier to the pre-assigned composite type identifier, and the call to
create_toast_table with both caller-supplied identifiers. -/
def BootstrapToastTable (mode : Mode) (rel : Relation)
    (toastOid toastIndexOid freshRelOid freshIdxOid : Nat) :
    Except BootstrapError ToastCreation :=
  if rel.relkind ≠ 'r' ∧ rel.relkind ≠ 'u' then
    Except.error BootstrapError.notATable
  else
    bootstrapFinish (create_toast_table mode rel toastOid toastIndexOid
      (some (bootstrapTypid toastOid)) false freshRelOid freshIdxOid)

/-- Definition following the wording of the claim on the eligibility total
(for comparison with the source computation): one accumulation step that
adds alignment-padded fixed-length sizes and the declared maxima of
non-plain variable-length attributes, skipping dropped attributes and
plain-storage variable-length attributes. -/
def claimAccumStep (d : Int) (a : Attr) : Int :=
  if a.attisdropped then d
  else if a.attlen > 0 then att_align d a.attalign + a.attlen
  else if a.attstorage = 'p' then d
  else att_align d a.attalign + a.maxSize

/-- Definition following the wording of the claim on the eligibility
total: the accumulated sizes plus the per-row header/null-bitmap overhead
term. -/
def claimAccumTotal (rel : Relation) : Int :=
  MAXALIGN (offsetof_t_bits + BITMAPLEN (rel.attrs.length : Int)) +
    MAXALIGN (rel.attrs.foldl claimAccumStep 0)

/-- A mode with neither upgrade nor bootstrap processing active. -/
def modeNormal : Mode := { gp_upgrade_mode := false, bootstrap_processing := false }

/-- Bootstrap processing mode. -/
def modeBootstrap : Mode := { gp_upgrade_mode := false, bootstrap_processing := true }

/-- Upgrade mode. -/
def modeUpgrade : Mode := { gp_upgrade_mode := true, bootstrap_processing := false }

/-- A variable-length, int-aligned, extended-storage attribute with the
given declared maximum size. -/
def varAttrX (m : Int) : Attr :=
  { attisdropped := false, attalign := 'i', attlen := -1,
    maxSize := m, attstorage := 'x' }

/-- A dropped attribute. -/
def droppedAttr : Attr :=
  { attisdropped := true, attalign := 'i', attlen := 4,
    maxSize := 4, attstorage := 'p' }

/-- An ordinary toast-eligible owner: one extended-storage variable
attribute with a 3000-byte maximum, no toast reference yet. -/
def relSample : Relation :=
  { relOid := 7, relkind := 'r', relisshared := false, reltoastrelid := 0,
    isExternal := false, isAo := false, attrs := [varAttrX 3000] }

/-- The same owner already referencing a toast relation. -/
def relToasted : Relation :=
  { relSample with reltoastrelid := 42 }

/-- A shared owner already referencing a toast relation. -/
def relSharedToasted : Relation :=
  { relSample with relisshared := true, reltoastrelid := 42 }

/-- A shared, eligible, not-yet-toasted owner. -/
def relSharedEligible : Relation :=
  { relSample with relisshared := true }

/-- An owner whose single attribute is variable-length with unknown
maximum but plain storage. -/
def relUnboundedPlain : Relation :=
  { relOid := 8, relkind := 'r', relisshared := false, reltoastrelid := 0,
    isExternal := false, isAo := false,
    attrs := [{ attisdropped := false, attalign := 'i', attlen := -1,
                maxSize := -1, attstorage := 'p' }] }

/-- An owner whose single attribute is variable-length with unknown
maximum and extended storage. -/
def relUnboundedX : Relation :=
  { relOid := 9, relkind := 'r', relisshared := false, reltoastrelid := 0,
    isExternal := false, isAo := false,
    attrs := [{ attisdropped := false, attalign := 'i', attlen := -1,
                maxSize := -1, attstorage := 'x' }] }

/-- The claim's first worked example: two non-plain variable attributes
with bounded maxima 100 and 3000 bytes. -/
def relExampleBig : Relation :=
  { relOid := 10, relkind := 'r', relisshared := false, reltoastrelid := 0,
    isExternal := false, isAo := false, attrs := [varAttrX 100, varAttrX 3000] }

/-- The claim's second worked example: bounded maxima 50 and 100 bytes. -/
def relExampleSmall : Relation :=
  { relOid := 11, relkind := 'r', relisshared := false, reltoastrelid := 0,
    isExternal := false, isAo := false, attrs := [varAttrX 50, varAttrX 100] }

/-- An owner with one extended-storage variable attribute of bounded
maximum next to one plain-storage variable attribute of large bounded
maximum. -/
def relPlainVar : Relation :=
  { relOid := 12, relkind := 'r', relisshared := false, reltoastrelid := 0,
    isExternal := false, isAo := false,
    attrs := [varAttrX 100,
              { attisdropped := false, attalign := 'i', attlen := -1,
                maxSize := 3000, attstorage := 'p' }] }

/-- An owner whose single live attribute puts the tuple length just below
the threshold. -/
def relDropBase : Relation :=
  { relOid := 13, relkind := 'r', relisshared := false, reltoastrelid := 0,
    isExternal := false, isAo := false, attrs := [varAttrX 2010] }

/-- The same owner with eight additional dropped attributes, which widen
the null bitmap. -/
def relDropBig : Relation :=
  { relDropBase with attrs := relDropBase.attrs ++ List.replicate 8 droppedAttr }

/-- The same owner with three additional dropped attributes, which leave
the padded null-bitmap term unchanged. -/
def relDropSmall : Relation :=
  { relDropBase with attrs := relDropBase.attrs ++ List.replicate 3 droppedAttr }

/-- A registered bootstrap owner stand-in: ordinary table kind, eligible,
no toast reference. -/
def relBootOwner : Relation :=
  { relOid := 5033, relkind := 'r', relisshared := false, reltoastrelid := 0,
    isExternal := false, isAo := false, attrs := [varAttrX 3000] }

/-- The variable-length scan branch keeps an already-set unknown-maximum
flag set. -/
theorem scanVarAttr_unknown_mono (s : ScanState) (a : Attr)
    (h : s.maxlength_unknown = true) :
    (scanVarAttr s a).maxlength_unknown = true := by
  unfold scanVarAttr
  split
  · rfl
  · exact h

/-- The variable-length scan branch never touches the toastability flag. -/
theorem scanVarAttr_toastable_eq (s : ScanState) (a : Attr) :
    (scanVarAttr s a).has_toastable_attrs = s.has_toastable_attrs := by
  unfold scanVarAttr
  split <;> rfl

/-- One scan step keeps an already-set unknown-maximum flag set. -/
theorem scanAttr_unknown_mono (s : ScanState) (a : Attr)
    (h : s.maxlength_unknown = true) :
    (scanAttr s a).maxlength_unknown = true := by
  unfold scanAttr
  split
  · exact h
  · split
    · exact h
    · split
      · exact scanVarAttr_unknown_mono s a h
      · exact scanVarAttr_unknown_mono s a h

/-- One scan step keeps an already-set toastability flag set. -/
theorem scanAttr_toastable_mono (s : ScanState) (a : Attr)
    (h : s.has_toastable_attrs = true) :
    (scanAttr s a).has_toastable_attrs = true := by
  unfold scanAttr
  split
  · exact h
  · split
    · exact h
    · split
      · rw [scanVarAttr_toastable_eq]; exact h
      · rfl

/-- Scanning a live variable-length attribute of unknown maximum sets the
unknown-maximum flag. -/
theorem scanAttr_unknown_set (s : ScanState) (a : Attr)
    (h1 : a.attisdropped = false) (h2 : a.attlen ≤ 0) (h3 : a.maxSize < 0) :
    (scanAttr s a).maxlength_unknown = true := by
  have hv : (scanVarAttr s a).maxlength_unknown = true := by
    unfold scanVarAttr
    rw [if_pos h3]
  unfold scanAttr
  rw [if_neg (by simp [h1]), if_neg (by omega)]
  split
  · exact hv
  · exact hv

/-- Scanning a live variable-length attribute of non-plain storage sets
the toastability flag. -/
theorem scanAttr_toastable_set (s : ScanState) (a : Attr)
    (h1 : a.attisdropped = false) (h2 : a.attlen ≤ 0) (h3 : a.attstorage ≠ 'p') :
    (scanAttr s a).has_toastable_attrs = true := by
  unfold scanAttr
  rw [if_neg (by simp [h1]), if_neg (by omega), if_neg h3]

/-- The whole scan keeps an already-set unknown-maximum flag set. -/
theorem foldl_unknown_mono : ∀ (l : List Attr) (s : ScanState),
    s.maxlength_unknown = true →
    (List.foldl scanAttr s l).maxlength_unknown = true := by
  intro l
  induction l with
  | nil => intro s h; exact h
  | cons b t ih =>
    intro s h
    rw [List.foldl_cons]
    exact ih _ (scanAttr_unknown_mono s b h)

/-- The whole scan keeps an already-set toastability flag set. -/
theorem foldl_toastable_mono : ∀ (l : List Attr) (s : ScanState),
    s.has_toastable_attrs = true →
    (List.foldl scanAttr s l).has_toastable_attrs = true := by
  intro l
  induction l with
  | nil => intro s h; exact h
  | cons b t ih =>
    intro s h
    rw [List.foldl_cons]
    exact ih _ (scanAttr_toastable_mono s b h)

/-- A live variable-length attribute of unknown maximum anywhere in the
list makes the scan end with the unknown-maximum flag set. -/
theorem foldl_unknown_of_mem (a : Attr)
    (h1 : a.attisdropped = false) (h2 : a.attlen ≤ 0) (h3 : a.maxSize < 0) :
    ∀ (l : List Attr) (s : ScanState), a ∈ l →
    (List.foldl scanAttr s l).maxlength_unknown = true := by
  intro l
  induction l with
  | nil => intro s ha; cases ha
  | cons b t ih =>
    intro s ha
    rw [List.foldl_cons]
    rcases List.mem_cons.mp ha with hab | hmem
    · subst hab
      exact foldl_unknown_mono t _ (scanAttr_unknown_set s a h1 h2 h3)
    · exact ih _ hmem

/-- A live variable-length attribute of non-plain storage anywhere in the
list makes the scan end with the toastability flag set. -/
theorem foldl_toastable_of_mem (a : Attr)
    (h1 : a.attisdropped = false) (h2 : a.attlen ≤ 0) (h3 : a.attstorage ≠ 'p') :
    ∀ (l : List Attr) (s : ScanState), a ∈ l →
    (List.foldl scanAttr s l).has_toastable_attrs = true := by
  intro l
  induction l with
  | nil => intro s ha; cases ha
  | cons b t ih =>
    intro s ha
    rw [List.foldl_cons]
    rcases List.mem_cons.mp ha with hab | hmem
    · subst hab
      exact foldl_toastable_mono t _ (scanAttr_toastable_set s a h1 h2 h3)
    · exact ih _ hmem

/-- Claim C1 as stated is false on the code: this owner has an attribute
of unbounded maximum size, yet the evaluator returns false, because the
unbounded attribute itself has plain storage and nothing else is
toastable. -/
theorem unbounded_plain_storage_cex :
    (∃ a ∈ relUnboundedPlain.attrs,
        a.attisdropped = false ∧ a.attlen ≤ 0 ∧ a.maxSize < 0) ∧
    RelationNeedsToastTable relUnboundedPlain = false := by
  decide

/-- Claim C1, amended: for every owner of non-exempt kind that has a live
variable-length attribute of unbounded/unknown maximum size and some live
variable-length attribute of non-plain storage, the eligibility evaluator
returns true, regardless of the sizes or storage classes of the other
attributes. -/
theorem needs_toast_unbounded (rel : Relation) (a b : Attr)
    (hE : rel.isExternal = false) (hA : rel.isAo = false)
    (ha : a ∈ rel.attrs) (ha1 : a.attisdropped = false)
    (ha2 : a.attlen ≤ 0) (ha3 : a.maxSize < 0)
    (hb : b ∈ rel.attrs) (hb1 : b.attisdropped = false)
    (hb2 : b.attlen ≤ 0) (hb3 : b.attstorage ≠ 'p') :
    RelationNeedsToastTable rel = true := by
  have hu : (scanAttrs rel.attrs).maxlength_unknown = true :=
    foldl_unknown_of_mem a ha1 ha2 ha3 rel.attrs _ ha
  have ht : (scanAttrs rel.attrs).has_toastable_attrs = true :=
    foldl_toastable_of_mem b hb1 hb2 hb3 rel.attrs _ hb
  simp [RelationNeedsToastTable, hE, hA, hu, ht]

/-- Witness for the amended claim C1 at a concrete owner whose single
attribute is variable-length, of unknown maximum and extended storage. -/
theorem needs_toast_unbounded_witness :
    RelationNeedsToastTable relUnboundedX = true :=
  needs_toast_unbounded relUnboundedX
    { attisdropped := false, attalign := 'i', attlen := -1,
      maxSize := -1, attstorage := 'x' }
    { attisdropped := false, attalign := 'i', attlen := -1,
      maxSize := -1, attstorage := 'x' }
    rfl rfl (by decide) rfl (by decide) (by decide)
    (by decide) rfl (by decide) (by decide)

/-- Inversion of the success path of create_toast_table: a true return
carries exactly the creation record the source builds. -/
theorem createProvisionedEq (mode : Mode) (rel : Relation) (tO tI : Nat)
    (ct : Option Nat) (ipc : Bool) (fR fI : Nat) (c : ToastCreation)
    (h : create_toast_table mode rel tO tI ct ipc fR fI =
      Except.ok (ProvisionResult.provisioned c)) :
    c = mkToastCreation mode rel tO tI ct ipc fR fI := by
  unfold create_toast_table at h
  split at h
  · simp at h
  · split at h
    · simp at h
    · split at h
      · simp at h
      · split at h
        · simp at h
        · injection h with h1
          injection h1 with h2
          exact h2.symm

/-- Claim C2: outside upgrade mode, an owner already referencing a toast
relation makes create_toast_table a no-op false return with no creation,
no error and no catalog change; consequently, after a first successful
provision (whose allocator returned a valid identifier), any second run
on the updated owner is such a no-op, so nothing is created twice. -/
theorem create_toast_table_idempotent (mode : Mode)
    (tO tI : Nat) (ct : Option Nat) (ipc : Bool) (fR fI : Nat)
    (hup : mode.gp_upgrade_mode = false) :
    (∀ rel : Relation, rel.reltoastrelid ≠ InvalidOid →
      create_toast_table mode rel tO tI ct ipc fR fI =
        Except.ok ProvisionResult.noop ∧
      ownerAfter rel (create_toast_table mode rel tO tI ct ipc fR fI) = rel) ∧
    (∀ (rel0 : Relation) (tO0 tI0 : Nat) (ct0 : Option Nat) (ipc0 : Bool)
        (fR0 fI0 : Nat) (c : ToastCreation),
      create_toast_table mode rel0 tO0 tI0 ct0 ipc0 fR0 fI0 =
        Except.ok (ProvisionResult.provisioned c) →
      fR0 ≠ 0 →
      create_toast_table mode (applyProvision rel0 c) tO tI ct ipc fR fI =
        Except.ok ProvisionResult.noop) := by
  constructor
  · intro rel hrel
    have h : create_toast_table mode rel tO tI ct ipc fR fI =
        Except.ok ProvisionResult.noop := by
      unfold create_toast_table
      rw [if_pos ⟨hup, hrel⟩]
    exact ⟨h, by rw [h]; rfl⟩
  · intro rel0 tO0 tI0 ct0 ipc0 fR0 fI0 c hcreate hfr
    have hne : c.toastRelid ≠ 0 := by
      rw [createProvisionedEq mode rel0 tO0 tI0 ct0 ipc0 fR0 fI0 c hcreate]
      show usedOid tO0 fR0 ≠ 0
      unfold usedOid
      split
      · assumption
      · exact hfr
    have hrel : (applyProvision rel0 c).reltoastrelid ≠ InvalidOid := hne
    unfold create_toast_table
    rw [if_pos ⟨hup, hrel⟩]

/-- Witness for claim C2: an already-toasted owner yields the no-op, and
re-running on the owner produced by a concrete successful provision
yields the no-op as well. -/
theorem create_toast_table_idempotent_witness :
    create_toast_table modeNormal relToasted 0 0 none false 9000 9001 =
      Except.ok ProvisionResult.noop ∧
    create_toast_table modeNormal
        (applyProvision relSample
          (mkToastCreation modeNormal relSample 0 0 none false 9000 9001))
        0 0 none false 9000 9001 =
      Except.ok ProvisionResult.noop := by
  have h := create_toast_table_idempotent modeNormal 0 0 none false 9000 9001 rfl
  exact ⟨(h.1 relToasted (by decide)).1,
    h.2 relSample 0 0 none false 9000 9001 _ (by decide) (by decide)⟩

/-- Claim C3 as stated is false on the code: this shared owner, outside
bootstrap and upgrade mode, does not fail with the shared-relation error;
because it already references a toast relation, the run returns the no-op
false before the shared-relation guard is reached. -/
theorem shared_noop_cex :
    relSharedToasted.relisshared = true ∧
    create_toast_table modeNormal relSharedToasted 0 0 none false 9000 9001 =
      Except.ok ProvisionResult.noop := by
  decide

/-- Claim C3, amended: for every shared owner that does not yet reference
a toast relation and is toast-eligible, provisioning outside bootstrap and
upgrade mode fails fatally with the shared-relation error and leaves the
owner's catalog row unchanged; a shared owner that already references a
toast relation (or is ineligible) returns the no-op instead. -/
theorem shared_relation_guard (mode : Mode) (rel : Relation) (tO tI : Nat)
    (ct : Option Nat) (ipc : Bool) (fR fI : Nat)
    (hb : mode.bootstrap_processing = false) (hu : mode.gp_upgrade_mode = false)
    (hs : rel.relisshared = true) (h0 : rel.reltoastrelid = InvalidOid)
    (hn : RelationNeedsToastTable rel = true) :
    create_toast_table mode rel tO tI ct ipc fR fI =
      Except.error ToastError.sharedAfterInitdb ∧
    ownerAfter rel (create_toast_table mode rel tO tI ct ipc fR fI) = rel := by
  have h : create_toast_table mode rel tO tI ct ipc fR fI =
      Except.error ToastError.sharedAfterInitdb := by
    unfold create_toast_table
    rw [if_neg (by simp [h0]), if_neg (by simp [hn]), if_neg (by simp [hu]),
      if_pos ⟨hs, hb, hu⟩]
  exact ⟨h, by rw [h]; rfl⟩

/-- Witness for the amended claim C3 at a concrete shared, eligible,
not-yet-toasted owner. -/
theorem shared_relation_guard_witness :
    create_toast_table modeNormal relSharedEligible 0 0 none false 9000 9001 =
      Except.error ToastError.sharedAfterInitdb ∧
    ownerAfter relSharedEligible
        (create_toast_table modeNormal relSharedEligible 0 0 none false 9000 9001) =
      relSharedEligible :=
  shared_relation_guard modeNormal relSharedEligible 0 0 none false 9000 9001
    rfl rfl (by decide) (by decide) (by decide)

/-- Claim C10: in upgrade mode, a call that supplies no pre-assigned
toast-relation identifier returns the no-op false and performs no catalog
mutation, whatever the owner's state. -/
theorem upgrade_invalid_oid_noop (mode : Mode) (rel : Relation) (tI : Nat)
    (ct : Option Nat) (ipc : Bool) (fR fI : Nat)
    (hu : mode.gp_upgrade_mode = true) :
    create_toast_table mode rel InvalidOid tI ct ipc fR fI =
      Except.ok ProvisionResult.noop ∧
    ownerAfter rel (create_toast_table mode rel InvalidOid tI ct ipc fR fI) = rel := by
  have h : create_toast_table mode rel InvalidOid tI ct ipc fR fI =
      Except.ok ProvisionResult.noop := by
    unfold create_toast_table
    rw [if_neg (by simp [hu])]
    split
    · rfl
    · rw [if_pos ⟨hu, rfl⟩]
  exact ⟨h, by rw [h]; rfl⟩

/-- Witness for claim C10 at a concrete eligible, not-yet-toasted owner
in upgrade mode. -/
theorem upgrade_invalid_oid_noop_witness :
    create_toast_table modeUpgrade relSample InvalidOid 0 none false 9000 9001 =
      Except.ok ProvisionResult.noop ∧
    ownerAfter relSample
        (create_toast_table modeUpgrade relSample InvalidOid 0 none false 9000 9001) =
      relSample :=
  upgrade_invalid_oid_noop modeUpgrade relSample 0 none false 9000 9001 rfl

/-- Claim C5: every toast index the provisioner creates is a unique,
non-concurrently built, ordered (btree) index on exactly the two columns
(value identifier, chunk sequence) — attribute numbers 1 and 2 of the
toast relation, with the btree operator classes — and it receives the
caller-supplied pre-assigned identifier whenever one is given. -/
theorem toast_index_shape (mode : Mode) (rel : Relation) (tO tI : Nat)
    (ct : Option Nat) (ipc : Bool) (fR fI : Nat) (c : ToastCreation)
    (h : create_toast_table mode rel tO tI ct ipc fR fI =
      Except.ok (ProvisionResult.provisioned c)) :
    c.indexInfo.unique = true ∧
    c.indexInfo.concurrent = false ∧
    c.indexInfo.numIndexAttrs = 2 ∧
    c.indexInfo.keyAttrNumbers = [1, 2] ∧
    c.indexAm = BTREE_AM_OID ∧
    c.opclasses = [OID_BTREE_OPS_OID, INT4_BTREE_OPS_OID] ∧
    (tI ≠ 0 → c.toastIdxid = tI) := by
  have hc := createProvisionedEq mode rel tO tI ct ipc fR fI c h
  subst hc
  refine ⟨rfl, rfl, rfl, rfl, rfl, rfl, fun hne => ?_⟩
  show usedOid tI fI = tI
  unfold usedOid
  rw [if_pos hne]

/-- Witness for claim C5 at a concrete provision with a pre-assigned
index identifier. -/
theorem toast_index_shape_witness :
    (mkToastCreation modeNormal relSample 0 5555 none false 9000 9001).indexInfo.unique = true ∧
    (mkToastCreation modeNormal relSample 0 5555 none false 9000 9001).indexInfo.concurrent = false ∧
    (mkToastCreation modeNormal relSample 0 5555 none false 9000 9001).indexInfo.numIndexAttrs = 2 ∧
    (mkToastCreation modeNormal relSample 0 5555 none false 9000 9001).indexInfo.keyAttrNumbers = [1, 2] ∧
    (mkToastCreation modeNormal relSample 0 5555 none false 9000 9001).indexAm = BTREE_AM_OID ∧
    (mkToastCreation modeNormal relSample 0 5555 none false 9000 9001).opclasses =
      [OID_BTREE_OPS_OID, INT4_BTREE_OPS_OID] ∧
    (mkToastCreation modeNormal relSample 0 5555 none false 9000 9001).toastIdxid = 5555 := by
  have h := toast_index_shape modeNormal relSample 0 5555 none false 9000 9001
    (mkToastCreation modeNormal relSample 0 5555 none false 9000 9001) (by decide)
  exact ⟨h.1, h.2.1, h.2.2.1, h.2.2.2.1, h.2.2.2.2.1, h.2.2.2.2.2.1,
    h.2.2.2.2.2.2 (by decide)⟩

/-- Claim C6: every toast relation the provisioner creates has exactly
three columns, in fixed order — the value-identifier column (of the
identifier type, named chunk_id in the source), chunk_seq (32-bit signed
integer) and chunk_data (variable-length binary) — and every column is
forced to plain storage, so the toast relation can never itself be
toasted. -/
theorem toast_relation_columns (mode : Mode) (rel : Relation) (tO tI : Nat)
    (ct : Option Nat) (ipc : Bool) (fR fI : Nat) (c : ToastCreation)
    (h : create_toast_table mode rel tO tI ct ipc fR fI =
      Except.ok (ProvisionResult.provisioned c)) :
    c.columns = [{ name := "chunk_id", typeOid := OIDOID, attstorage := 'p' },
                 { name := "chunk_seq", typeOid := INT4OID, attstorage := 'p' },
                 { name := "chunk_data", typeOid := BYTEAOID, attstorage := 'p' }] ∧
    c.columns.length = 3 ∧
    (∀ col ∈ c.columns, col.attstorage = 'p') := by
  have hc := createProvisionedEq mode rel tO tI ct ipc fR fI c h
  subst hc
  refine ⟨rfl, rfl, ?_⟩
  intro col hcol
  simp only [mkToastCreation, List.mem_cons, List.not_mem_nil, or_false] at hcol
  rcases hcol with rfl | rfl | rfl <;> rfl

/-- Witness for claim C6 at a concrete provision. -/
theorem toast_relation_columns_witness :
    (mkToastCreation modeNormal relSample 0 0 none false 9000 9001).columns =
      [{ name := "chunk_id", typeOid := OIDOID, attstorage := 'p' },
       { name := "chunk_seq", typeOid := INT4OID, attstorage := 'p' },
       { name := "chunk_data", typeOid := BYTEAOID, attstorage := 'p' }] ∧
    (mkToastCreation modeNormal relSample 0 0 none false 9000 9001).columns.length = 3 ∧
    (∀ col ∈ (mkToastCreation modeNormal relSample 0 0 none false 9000 9001).columns,
      col.attstorage = 'p') :=
  toast_relation_columns modeNormal relSample 0 0 none false 9000 9001
    (mkToastCreation modeNormal relSample 0 0 none false 9000 9001) (by decide)

/-- Claim C7: every successful provision records an internal dependency
edge from the new toast relation to the owner exactly when the engine is
not in bootstrap processing mode; in bootstrap processing mode, and only
then, no edge is recorded. -/
theorem toast_dependency_edge (mode : Mode) (rel : Relation) (tO tI : Nat)
    (ct : Option Nat) (ipc : Bool) (fR fI : Nat) (c : ToastCreation)
    (h : create_toast_table mode rel tO tI ct ipc fR fI =
      Except.ok (ProvisionResult.provisioned c)) :
    c.dependency =
      (if mode.bootstrap_processing then none
       else some { dependent := c.toastRelid, referenced := rel.relOid,
                   depType := DependencyType.internal }) := by
  have hc := createProvisionedEq mode rel tO tI ct ipc fR fI c h
  subst hc
  rfl

/-- Witness for claim C7 at a concrete provision outside bootstrap mode. -/
theorem toast_dependency_edge_witness :
    (mkToastCreation modeNormal relSample 0 0 none false 9000 9001).dependency =
      (if modeNormal.bootstrap_processing then none
       else some { dependent := (mkToastCreation modeNormal relSample 0 0 none false 9000 9001).toastRelid, referenced := relSample.relOid, depType := DependencyType.internal }) :=
  toast_dependency_edge modeNormal relSample 0 0 none false 9000 9001
    (mkToastCreation modeNormal relSample 0 0 none false 9000 9001) (by decide)

/-- Claim C4 as stated is false on the code: this owner has a toastable
attribute and no unknown-maximum attribute, the total prescribed by the
claim (which counts only non-plain variable-length maxima) stays below the
threshold, yet the evaluator returns true, because the source adds the
declared maxima of plain-storage variable-length attributes as well. -/
theorem threshold_formula_cex :
    (scanAttrs relPlainVar.attrs).has_toastable_attrs = true ∧
    (scanAttrs relPlainVar.attrs).maxlength_unknown = false ∧
    relPlainVar.isExternal = false ∧ relPlainVar.isAo = false ∧
    claimAccumTotal relPlainVar ≤ TOAST_TUPLE_THRESHOLD ∧
    RelationNeedsToastTable relPlainVar = true := by
  decide

/-- Claim C4, amended: for every owner of non-exempt kind with at least
one toastable attribute and no unknown-maximum attribute, eligibility is
true if and only if the accumulated total — alignment-padded fixed-length
attribute sizes, plus the declared maximum sizes of ALL variable-length
attributes (plain-storage ones included; storage class only decides
whether anything is toastable), plus the fixed per-row header/null-bitmap
overhead term — exceeds the fixed design threshold; in particular,
non-plain variable maxima of 100 and 3000 bytes are eligible against the
roughly 2000-byte threshold, while maxima of 50 and 100 are not. -/
theorem needs_toast_iff_threshold (rel : Relation)
    (hE : rel.isExternal = false) (hA : rel.isAo = false)
    (hT : (scanAttrs rel.attrs).has_toastable_attrs = true)
    (hU : (scanAttrs rel.attrs).maxlength_unknown = false) :
    (RelationNeedsToastTable rel = true ↔
      tuple_length rel > TOAST_TUPLE_THRESHOLD) ∧
    RelationNeedsToastTable relExampleBig = true ∧
    RelationNeedsToastTable relExampleSmall = false := by
  refine ⟨?_, by decide, by decide⟩
  simp [RelationNeedsToastTable, hE, hA, hT, hU]

/-- Witness for the amended claim C4 at the claim's first worked example. -/
theorem needs_toast_iff_threshold_witness :
    (RelationNeedsToastTable relExampleBig = true ↔
      tuple_length relExampleBig > TOAST_TUPLE_THRESHOLD) ∧
    RelationNeedsToastTable relExampleBig = true ∧
    RelationNeedsToastTable relExampleSmall = false :=
  needs_toast_iff_threshold relExampleBig rfl rfl (by decide) (by decide)

/-- A dropped attribute leaves the scan state untouched. -/
theorem scanAttr_dropped (s : ScanState) (a : Attr)
    (h : a.attisdropped = true) : scanAttr s a = s := by
  unfold scanAttr
  rw [if_pos h]

/-- The scan result only depends on the live (non-dropped) attributes. -/
theorem scanAttrs_filter_eq : ∀ (l : List Attr) (s : ScanState),
    List.foldl scanAttr s (l.filter fun a => !a.attisdropped) =
      List.foldl scanAttr s l := by
  intro l
  induction l with
  | nil => intro s; rfl
  | cons a t ih =>
    intro s
    by_cases h : a.attisdropped = true
    · rw [List.filter_cons, if_neg (by simp [h]), List.foldl_cons,
        scanAttr_dropped s a h]
      exact ih s
    · rw [List.filter_cons, if_pos (by simp at h; simp [h]), List.foldl_cons,
        List.foldl_cons]
      exact ih (scanAttr s a)

/-- Claim C9 as stated is false on the code: appending eight dropped
attributes to this owner leaves the live attributes (and hence the scan
accumulators) unchanged, yet flips the evaluator from false to true,
because the dropped attributes still widen the null bitmap counted in the
per-row overhead term. -/
theorem dropped_attrs_cex :
    relDropBig.attrs.filter (fun a => !a.attisdropped) =
      relDropBase.attrs.filter (fun a => !a.attisdropped) ∧
    relDropBig.attrs = relDropBase.attrs ++ List.replicate 8 droppedAttr ∧
    RelationNeedsToastTable relDropBase = false ∧
    RelationNeedsToastTable relDropBig = true := by
  decide

/-- Claim C9, amended: the eligibility evaluator skips dropped attributes
in the accumulation — two owners of the same kind with the same live
attributes have the same scan state — and its result is identical with
and without additional dropped attributes whenever those leave the padded
header/null-bitmap overhead term unchanged; dropped attributes do count
toward the null-bitmap length, so the result can differ otherwise. -/
theorem dropped_attrs_invariant (rel1 rel2 : Relation)
    (hE : rel1.isExternal = rel2.isExternal) (hA : rel1.isAo = rel2.isAo)
    (hf : rel1.attrs.filter (fun a => !a.attisdropped) =
      rel2.attrs.filter (fun a => !a.attisdropped))
    (hh : MAXALIGN (offsetof_t_bits + BITMAPLEN (rel1.attrs.length : Int)) =
      MAXALIGN (offsetof_t_bits + BITMAPLEN (rel2.attrs.length : Int))) :
    RelationNeedsToastTable rel1 = RelationNeedsToastTable rel2 := by
  have hs : scanAttrs rel1.attrs = scanAttrs rel2.attrs := by
    unfold scanAttrs
    rw [← scanAttrs_filter_eq rel1.attrs, hf, scanAttrs_filter_eq rel2.attrs]
  have htl : tuple_length rel1 = tuple_length rel2 := by
    unfold tuple_length
    rw [hs, hh]
  simp only [RelationNeedsToastTable, hE, hA, hs, htl]

/-- Witness for the amended claim C9: three extra dropped attributes do
not change the padded overhead term, and the result is unchanged. -/
theorem dropped_attrs_invariant_witness :
    RelationNeedsToastTable relDropBase = RelationNeedsToastTable relDropSmall :=
  dropped_attrs_invariant relDropBase relDropSmall rfl rfl (by decide) (by decide)

/-- Claim C8: a bootstrap-mode provision through BootstrapToastTable for
an owner identity registered in the static map succeeds using exactly the
pre-assigned toast-relation, toast-index and composite-row-type
identifiers associated with that identity — never freshly allocated ones;
for every identity absent from the map, the composite type identifier
passed on is the invalid/unassigned one, routing the provision through
normal allocation. -/
theorem bootstrap_preassigned (mode : Mode) (rel : Relation)
    (t tI fR fI : Nat)
    (hb : mode.bootstrap_processing = true) (hu : mode.gp_upgrade_mode = false)
    (hk : rel.relkind = 'r' ∨ rel.relkind = 'u')
    (h0 : rel.reltoastrelid = InvalidOid)
    (hn : RelationNeedsToastTable rel = true)
    (hreg : t ∈ registeredBootstrapToastOids) (htI : tI ≠ 0) :
    (∃ c : ToastCreation,
      BootstrapToastTable mode rel t tI fR fI = Except.ok c ∧
      c.toastRelid = t ∧ c.toastIdxid = tI ∧
      c.comptypeArg = some (bootstrapTypid t) ∧ bootstrapTypid t ≠ InvalidOid) ∧
    (∀ u : Nat, u ∉ registeredBootstrapToastOids → bootstrapTypid u = InvalidOid) := by
  have hts : t ≠ 0 ∧ bootstrapTypid t ≠ InvalidOid := by
    fin_cases hreg <;> exact ⟨by decide, by decide⟩
  have hc : create_toast_table mode rel t tI (some (bootstrapTypid t)) false fR fI =
      Except.ok (ProvisionResult.provisioned
        (mkToastCreation mode rel t tI (some (bootstrapTypid t)) false fR fI)) := by
    unfold create_toast_table
    rw [if_neg (by simp [h0]), if_neg (by simp [hn]), if_neg (by simp [hu]),
      if_neg (by simp [hb])]
  constructor
  · refine ⟨mkToastCreation mode rel t tI (some (bootstrapTypid t)) false fR fI,
      ?_, ?_, ?_, rfl, hts.2⟩
    · unfold BootstrapToastTable
      rw [if_neg (by rcases hk with h | h <;> simp [h]), hc]
      rfl
    · show usedOid t fR = t
      unfold usedOid
      rw [if_pos hts.1]
    · show usedOid tI fI = tI
      unfold usedOid
      rw [if_pos htI]
  · intro u hm
    simp only [registeredBootstrapToastOids, List.mem_cons,
      List.not_mem_nil, or_false, not_or] at hm
    obtain ⟨m1, m2, m3, m4, m5, m6, m7, m8⟩ := hm
    simp [bootstrapTypid, m1, m2, m3, m4, m5, m6, m7, m8]

/-- Witness for claim C8 at a concrete bootstrap provision of the first
registered identity. -/
theorem bootstrap_preassigned_witness :
    (∃ c : ToastCreation,
      BootstrapToastTable modeBootstrap relBootOwner
          PgFileSpaceEntryToastTable 5035 9000 9001 = Except.ok c ∧
      c.toastRelid = PgFileSpaceEntryToastTable ∧ c.toastIdxid = 5035 ∧
      c.comptypeArg = some (bootstrapTypid PgFileSpaceEntryToastTable) ∧
      bootstrapTypid PgFileSpaceEntryToastTable ≠ InvalidOid) ∧
    (∀ u : Nat, u ∉ registeredBootstrapToastOids → bootstrapTypid u = InvalidOid) :=
  bootstrap_preassigned modeBootstrap relBootOwner
    PgFileSpaceEntryToastTable 5035 9000 9001
    rfl rfl (Or.inl rfl) rfl (by decide) (by decide) (by decide)

end Toasting
